import Mathlib

/-!
# Verification of the ZID cache file store (`src/zrtp/ZIDCacheFile.cpp`)

Shallow embedding of the ZID cache: a persistent store of fixed-size
records keyed by a 12-byte identifier (ZID), with a header record holding
the store's own identity, lookup-or-create over a sequential scan, and a
one-time migration from the legacy record layout.

The file is modelled as a list of structured records (records are
fixed-size, and every read/write in the source moves in whole records),
so byte offsets are represented in record units: the record at list index
`i` sits at byte offset `i * recordLength`.

The record codec (`ZIDRecordFile`, `zidrecord1_t`) is declared in headers
that are not part of the sources here; its fields and setters are modelled
from the spec, each marked `Modelled from the spec:`.
-/

set_option autoImplicit false

/-- A byte, modelled as a natural number (< 256 in any real file). -/
abbrev Byte := Nat

/-- Length of a ZID identifier in bytes. -/
def IDENTIFIER_LEN : Nat := 12

/-- Modelled from the spec: the `SASVerified` bit mask tested against the
legacy record's `rs1Valid` flags byte (`recOld.rs1Valid & SASVerified`).
The mask's concrete value comes from the missing codec header; every
property below depends only on whether the bit is set, never on its
position, so an arbitrary nonzero single-bit value is used. -/
def SASVerified : Byte := 2

/-- Modelled from the spec: the in-memory current-format record held by the
missing codec class `ZIDRecordFile` — an identifier (a fixed 12-byte field,
modelled as a byte list), three independent flag bits `ownZid`, `valid`,
`sasVerified`, and two retained-secret slots `RS1`/`RS2` (fixed-length byte
blocks, modelled as byte lists; the fresh all-unset slot is modelled as the
empty list, matching the spec's "secrets empty"). -/
structure ZIDRecordFile where
  identifier : List Byte
  ownZid : Bool
  valid : Bool
  sasVerified : Bool
  rs1Data : List Byte
  rs2Data : List Byte
  deriving Repr, DecidableEq

/-- Modelled from the spec: the `ZIDRecordFile` default constructor —
a freshly allocated record with all flag bits clear and empty fields. -/
def mkZIDRecordFile : ZIDRecordFile :=
  { identifier := [], ownZid := false, valid := false, sasVerified := false,
    rs1Data := [], rs2Data := [] }

/-- Modelled from the spec: `ZIDRecordFile::setZid` — stores the given
identifier (a whole-field `memcpy` of the 12-byte identifier). -/
def ZIDRecordFile.setZid (r : ZIDRecordFile) (zid : List Byte) : ZIDRecordFile :=
  { r with identifier := zid }

/-- Modelled from the spec: `ZIDRecordFile::setOwnZIDRecord` — marks the
record as the store's own-identity header record. -/
def ZIDRecordFile.setOwnZIDRecord (r : ZIDRecordFile) : ZIDRecordFile :=
  { r with ownZid := true }

/-- Modelled from the spec: `ZIDRecordFile::setValid` — sets the `valid` bit. -/
def ZIDRecordFile.setValid (r : ZIDRecordFile) : ZIDRecordFile :=
  { r with valid := true }

/-- Modelled from the spec: `ZIDRecordFile::setSasVerified` — sets the
`sasVerified` bit. -/
def ZIDRecordFile.setSasVerified (r : ZIDRecordFile) : ZIDRecordFile :=
  { r with sasVerified := true }

/-- Modelled from the spec: `ZIDRecordFile::setNewRs1` — installs new RS1
material, first shifting the current RS1 slot into RS2. The spec describes
the migration's composite effect (§4.1 `makePeerFromLegacy` "carrying ...
the two secret slots") and notes (§9) that the migration code feeds the
legacy RS2 block to this setter before the legacy RS1 block; with the
shift-then-install behaviour those two calls leave legacy `rs1Data` in RS1
and legacy `rs2Data` in RS2. -/
def ZIDRecordFile.setNewRs1 (r : ZIDRecordFile) (data : List Byte) : ZIDRecordFile :=
  { r with rs2Data := r.rs1Data, rs1Data := data }

/-- Modelled from the spec: the legacy on-disk record `zidrecord1_t` —
single-byte `recValid` and `ownZid` markers, an `rs1Valid` flags byte
(carrying the `SASVerified` bit), the identifier, and the two legacy
retained-secret blocks `rs1Data`/`rs2Data`. -/
structure zidrecord1 where
  recValid : Byte
  ownZid : Byte
  rs1Valid : Byte
  identifier : List Byte
  rs1Data : List Byte
  rs2Data : List Byte
  deriving Repr, DecidableEq

/-! ## getRecord (lookup-or-create), `ZIDCacheFile::getRecord`, lines 191–229

The scan is a C `do`/`while` loop:

    do {
        pos = ftell(zidFile);
        numRead = fread(...);
        if (numRead == 0) break;
        if (zidRecord->isOwnZIDRecord() || !zidRecord->isValid()) continue;
    } while (numRead == 1 && memcmp(identifier, zid, IDENTIFIER_LEN) != 0);

In C, `continue` inside a `do`/`while` jumps to the loop *condition*, so the
identifier comparison is evaluated for skipped (own or invalid) records as
well: any record after the header whose identifier matches the query
terminates the loop and is the record returned, whether or not it was
"skipped". The two branches of the skip test below are therefore
identical — deliberately so, to mirror the source's control flow. -/

/-- Outcome of the scan loop: either the loop exited on the `memcmp`
condition holding a record read at record-offset `pos` (`numRead == 1`),
or `fread` hit end-of-file with the file pointer at record-offset `pos`
(`numRead == 0`). -/
inductive ScanResult where
  | found (r : ZIDRecordFile) (pos : Nat)
  | eof (pos : Nat)
  deriving Repr, DecidableEq

/-- The `do`/`while` scan of `ZIDCacheFile::getRecord`, over the records
after the header, starting at record-offset `pos`. -/
def scanLoop (zid : List Byte) : List ZIDRecordFile → Nat → ScanResult
  | [], pos => .eof pos
  | r :: rest, pos =>
    if r.ownZid ∨ ¬ r.valid then
      -- "skip own ZID record and invalid records": `continue` re-evaluates
      -- the loop condition, which still compares this record's identifier
      if r.identifier = zid then .found r pos else scanLoop zid rest (pos + 1)
    else
      if r.identifier = zid then .found r pos else scanLoop zid rest (pos + 1)

/-- `ZIDCacheFile::getRecord(zid)`: seek past the header record, run the
scan; on end-of-file build a fresh record (`setZid`, `setValid`) and append
it at the file's end. Returns the record annotated with its record-offset,
and the (possibly extended) file.

The store only calls this with the file open, hence nonempty (the header
record was read successfully by `open`); on a nonempty file the `eof`
position equals the file's length, which is where the append lands. -/
def getRecord (file : List ZIDRecordFile) (zid : List Byte) :
    (ZIDRecordFile × Nat) × List ZIDRecordFile :=
  match scanLoop zid (file.drop 1) 1 with
  | .found r pos => ((r, pos), file)
  | .eof pos =>
    let newRec := (mkZIDRecordFile.setZid zid).setValid
    ((newRec, pos), file ++ [newRec])

/-! ## Migration of a legacy record, `ZIDCacheFile::checkDoMigration` loop body -/

/-- The translation of one legacy record in the migration loop
(lines 134–141): a fresh record, `setZid(recOld.identifier)`, `setValid()`,
`setSasVerified()` exactly when `recOld.rs1Valid & SASVerified` is nonzero,
then `setNewRs1(recOld.rs2Data)` followed by `setNewRs1(recOld.rs1Data)`
(the spec's `makePeerFromLegacy`). -/
def makePeerFromLegacy (recOld : zidrecord1) : ZIDRecordFile :=
  let rec2 := mkZIDRecordFile
  let rec2 := rec2.setZid recOld.identifier
  let rec2 := rec2.setValid
  let rec2 := if recOld.rs1Valid &&& SASVerified ≠ 0 then rec2.setSasVerified else rec2
  let rec2 := rec2.setNewRs1 recOld.rs2Data
  let rec2 := rec2.setNewRs1 recOld.rs1Data
  rec2

/-- The migration copy loop (lines 125–145): read legacy records until
end-of-file; skip own records and records whose validity byte is zero;
translate and append every other record. -/
def migrateLoop : List zidrecord1 → List ZIDRecordFile
  | [] => []
  | recOld :: rest =>
    if recOld.ownZid = 1 ∨ recOld.recValid = 0 then migrateLoop rest
    else makePeerFromLegacy recOld :: migrateLoop rest

/-! ## Files, the store state, migration and open -/

/-- The content of a file on disk, as far as the store can observe it:
either a current-format file (a list of current-format records), a
legacy-format file (a list of legacy records), or a file of fewer than two
bytes (empty, or a single byte) from which neither the two-byte format peek
nor a whole record can be read.

Modelled from the spec: the leading byte of each format. A current-format
record starts with its nonzero format/version marker ("a format/version
marker distinguishing it from the legacy layout"; "A non-zero leading byte
signals current format"), while a legacy-format file's leading byte is
zero. -/
inductive FileData where
  | currentFmt (recs : List ZIDRecordFile)
  | legacyFmt (recs : List zidrecord1)
  | shortFile (firstByte : Option Byte)
  deriving Repr, DecidableEq

/-- The two-byte peek `fread(inb, 2, 1, zidFile)` at the start of
`checkDoMigration`: `none` when the file holds fewer than two bytes (the
read fails), otherwise the file's leading byte `inb[0]`. A nonempty
current-format file leads with the nonzero version marker (modelled as 1);
a nonempty legacy-format file leads with a zero byte. -/
def readFirstByte : FileData → Option Byte
  | .currentFmt [] => none
  | .currentFmt (_ :: _) => some 1
  | .legacyFmt [] => none
  | .legacyFmt (_ :: _) => some 0
  | .shortFile _ => none

/-- Reading one whole `zidrecord1_t` from the start of a file
(`fread(&recOld, sizeof(zidrecord1_t), 1, fdOld)`): succeeds exactly on a
legacy-format file with at least one record. -/
def readLegacyFirst : FileData → Option zidrecord1
  | .legacyFmt (r :: _) => some r
  | _ => none

/-- The legacy records following the first one, read sequentially by the
migration loop. -/
def legacyRest : FileData → List zidrecord1
  | .legacyFmt (_ :: rest) => rest
  | _ => []

/-- The state of one `ZIDCacheFile` instance together with the two disk
paths it touches: `zidFileOpen` models `zidFile != NULL` (the open handle
always refers to the file at the original path, whose content is
`mainFile`); `saveFile` is the content at the `.save` sibling path;
`associatedZid` is the cached own identifier; `errors` is the
process-wide write/read failure counter. `none` for a file means no file
exists at that path. -/
structure CacheState where
  zidFileOpen : Bool
  mainFile : Option FileData
  saveFile : Option FileData
  associatedZid : List Byte
  errors : Nat
  deriving Repr, DecidableEq

/-- `ZIDCacheFile::createZIDFile(name)`, lines 47–62: create/truncate the
file, generate a random ZID (`rand` stands for the opaque `randomZRTP`
output), store it as `associatedZid`, and write it as the own-identity
first record. File creation is modelled as succeeding. -/
def createZIDFile (rand : List Byte) (s : CacheState) : CacheState :=
  let rec0 := (mkZIDRecordFile.setZid rand).setOwnZIDRecord
  { s with zidFileOpen := true,
           mainFile := some (.currentFmt [rec0]),
           associatedZid := rand }

/-- `ZIDCacheFile::checkDoMigration(name)`, lines 72–148. `rand` is the
random ZID used if a brand-new file must be created; `renameOk` models
whether the `rename` of the legacy file to its `.save` sibling succeeds.
Called by `open` with the file open; if no file is open the function is
modelled as the identity (`fread` on a null handle is outside the model).

- A failed two-byte peek increments `errors` and forces `inb[0] = 0`;
  a nonzero leading byte means current format: return unchanged.
- Otherwise close the file. If the rename fails, unlink the original and
  create a brand-new store (`createZIDFile`). If it succeeds, the content
  moves to the `.save` path; reopen it read-only as the legacy source.
- If the first legacy record cannot be read, or is not an own record,
  abort: no file at the original path, store left closed.
- Otherwise create the new file, write the header record carrying the
  legacy own identifier, and translate every remaining legacy record that
  is neither an own record nor invalid. -/
def checkDoMigration (rand : List Byte) (renameOk : Bool) (s : CacheState) : CacheState :=
  match s.mainFile, s.zidFileOpen with
  | some content, true =>
    let s1 := if (readFirstByte content).isNone then { s with errors := s.errors + 1 } else s
    let inb0 := (readFirstByte content).getD 0
    if inb0 > 0 then s1
    else
      let s2 := { s1 with zidFileOpen := false }
      if !renameOk then
        createZIDFile rand { s2 with mainFile := none }
      else
        let s3 := { s2 with saveFile := some content, mainFile := none }
        match readLegacyFirst content with
        | none => s3
        | some recOld =>
          if recOld.ownZid ≠ 1 then s3
          else
            let hdr := (mkZIDRecordFile.setZid recOld.identifier).setOwnZIDRecord
            { s3 with zidFileOpen := true,
                      mainFile := some (.currentFmt (hdr :: migrateLoop (legacyRest content))) }
  | _, _ => s

/-- `ZIDCacheFile::open(name)`, lines 154–181. Returns the C return code
(`0` if a ZID file is already active, `1` on success, `-1` on failure)
paired with the resulting state. `rand` and `renameOk` are the environment
parameters threaded to `createZIDFile` / `checkDoMigration`; opening an
existing file (`fopen(name, "rb+")`) succeeds exactly when a file exists
at the path, and file creation is modelled as succeeding. -/
def openCache (rand : List Byte) (renameOk : Bool) (s : CacheState) : Int × CacheState :=
  if s.zidFileOpen then (0, s)
  else
    match s.mainFile with
    | none =>
      let s1 := createZIDFile rand s
      ((if s1.zidFileOpen then 1 else -1), s1)
    | some _ =>
      let s1 := checkDoMigration rand renameOk { s with zidFileOpen := true }
      if s1.zidFileOpen then
        match s1.mainFile with
        | some (.currentFmt (rec0 :: _)) =>
          if rec0.ownZid then
            (1, { s1 with associatedZid := rec0.identifier })
          else
            (-1, { s1 with zidFileOpen := false })
        | _ => (-1, { s1 with zidFileOpen := false })
      else (-1, s1)

/-! ## Helper lemmas -/

/-- The two branches of the skip test in `scanLoop` coincide: every record,
skipped or not, exits the loop exactly when its identifier matches. -/
theorem scanLoop_cons (zid : List Byte) (r : ZIDRecordFile) (rest : List ZIDRecordFile)
    (pos : Nat) :
    scanLoop zid (r :: rest) pos =
      if r.identifier = zid then .found r pos else scanLoop zid rest (pos + 1) := by
  by_cases h : r.ownZid ∨ ¬ r.valid <;> simp [scanLoop, h]

/-- If no record in the scanned list carries the queried identifier, the
scan reaches end-of-file with the position advanced over the whole list. -/
theorem scanLoop_no_match (zid : List Byte) (l : List ZIDRecordFile) (pos : Nat)
    (h : ∀ r ∈ l, r.identifier ≠ zid) :
    scanLoop zid l pos = .eof (pos + l.length) := by
  induction l generalizing pos with
  | nil => simp [scanLoop]
  | cons r rest ih =>
    have hr : r.identifier ≠ zid := h r (by simp)
    have hrest : ∀ x ∈ rest, x.identifier ≠ zid := fun x hx => h x (by simp [hx])
    rw [scanLoop_cons, if_neg hr, ih _ hrest]
    simp [Nat.add_comm, Nat.add_assoc, Nat.add_left_comm]

/-- Conversely, an end-of-file scan outcome means no scanned record carried
the queried identifier, and pins the final position. -/
theorem scanLoop_eof_inv (zid : List Byte) (l : List ZIDRecordFile) (pos q : Nat)
    (h : scanLoop zid l pos = .eof q) :
    (∀ r ∈ l, r.identifier ≠ zid) ∧ q = pos + l.length := by
  induction l generalizing pos with
  | nil =>
    simp only [scanLoop, ScanResult.eof.injEq] at h
    exact ⟨by simp, by simp [h]⟩
  | cons r rest ih =>
    rw [scanLoop_cons] at h
    by_cases hid : r.identifier = zid
    · simp [hid] at h
    · rw [if_neg hid] at h
      obtain ⟨h1, h2⟩ := ih _ h
      refine ⟨?_, by simp [h2]; omega⟩
      intro x hx
      rcases List.mem_cons.mp hx with rfl | hx'
      · exact hid
      · exact h1 x hx'

/-- Scanning a list with no match followed by a matching record finds that
record at the position just past the list. -/
theorem scanLoop_append_match (zid : List Byte) (l : List ZIDRecordFile)
    (x : ZIDRecordFile) (pos : Nat)
    (h : ∀ r ∈ l, r.identifier ≠ zid) (hx : x.identifier = zid) :
    scanLoop zid (l ++ [x]) pos = .found x (pos + l.length) := by
  induction l generalizing pos with
  | nil => simp [scanLoop_cons, hx, scanLoop]
  | cons r rest ih =>
    have hr : r.identifier ≠ zid := h r (by simp)
    have hrest : ∀ y ∈ rest, y.identifier ≠ zid := fun y hy => h y (by simp [hy])
    rw [List.cons_append, scanLoop_cons, if_neg hr, ih _ hrest]
    simp [Nat.add_comm, Nat.add_assoc, Nat.add_left_comm]

/-- Unfolding `getRecord` when the scan finds a record. -/
theorem getRecord_scan_found (file : List ZIDRecordFile) (zid : List Byte)
    (r : ZIDRecordFile) (pos : Nat)
    (h : scanLoop zid (file.drop 1) 1 = .found r pos) :
    getRecord file zid = ((r, pos), file) := by
  unfold getRecord
  rw [h]

/-- Unfolding `getRecord` when the scan reaches end-of-file. -/
theorem getRecord_scan_eof (file : List ZIDRecordFile) (zid : List Byte) (pos : Nat)
    (h : scanLoop zid (file.drop 1) 1 = .eof pos) :
    getRecord file zid = (((mkZIDRecordFile.setZid zid).setValid, pos),
      file ++ [(mkZIDRecordFile.setZid zid).setValid]) := by
  unfold getRecord
  rw [h]

/-- Splitting a list's length by a Boolean predicate. -/
theorem length_filter_add_length_filter_not {α : Type} (p : α → Bool) (l : List α) :
    (l.filter p).length + (l.filter (fun a => !(p a))).length = l.length := by
  induction l with
  | nil => simp
  | cons x xs ih =>
    by_cases h : p x <;> simp [List.filter_cons, h] <;> omega

/-- Field-level description of `makePeerFromLegacy`: the identifier and both
secret slots are carried over (RS1 from legacy `rs1Data`, RS2 from legacy
`rs2Data`), the record is valid, not an own record, and `sasVerified` holds
exactly when the legacy `rs1Valid` flags byte has the `SASVerified` bit. -/
theorem makePeerFromLegacy_fields (recOld : zidrecord1) :
    (makePeerFromLegacy recOld).identifier = recOld.identifier ∧
    (makePeerFromLegacy recOld).rs1Data = recOld.rs1Data ∧
    (makePeerFromLegacy recOld).rs2Data = recOld.rs2Data ∧
    (makePeerFromLegacy recOld).valid = true ∧
    (makePeerFromLegacy recOld).ownZid = false ∧
    ((makePeerFromLegacy recOld).sasVerified = true ↔ recOld.rs1Valid &&& SASVerified ≠ 0) := by
  by_cases h : recOld.rs1Valid &&& SASVerified ≠ 0 <;>
    simp [makePeerFromLegacy, mkZIDRecordFile, ZIDRecordFile.setZid, ZIDRecordFile.setValid,
      ZIDRecordFile.setSasVerified, ZIDRecordFile.setNewRs1, h]

/-- The migration loop, on a list free of own records, keeps exactly the
records with a nonzero validity byte and translates each via
`makePeerFromLegacy`, in order. -/
theorem migrateLoop_eq_filter (l : List zidrecord1) (h : ∀ r ∈ l, r.ownZid ≠ 1) :
    migrateLoop l = (l.filter (fun r => !decide (r.recValid = 0))).map makePeerFromLegacy := by
  induction l with
  | nil => simp [migrateLoop]
  | cons x xs ih =>
    have hx : x.ownZid ≠ 1 := h x (by simp)
    have hxs : ∀ r ∈ xs, r.ownZid ≠ 1 := fun r hr => h r (by simp [hr])
    by_cases hv : x.recValid = 0 <;>
      simp [migrateLoop, hx, hv, List.filter_cons, ih hxs]

/-! ## Concrete sample data for closed evaluations -/

/-- A sample own identifier (12 bytes of 5). -/
def sampleOwnZid : List Byte := List.replicate IDENTIFIER_LEN 5

/-- The header record of a sample open store. -/
def sampleHeader : ZIDRecordFile := (mkZIDRecordFile.setZid sampleOwnZid).setOwnZIDRecord

/-- A sample peer identifier (12 bytes of 7). -/
def zidSeven : List Byte := List.replicate IDENTIFIER_LEN 7

/-- A sample peer identifier (12 bytes of 3). -/
def zidThree : List Byte := List.replicate IDENTIFIER_LEN 3

/-- A non-own record with `valid = false` carrying `zidSeven`: a record the
scan is supposed to skip. -/
def invalidSeven : ZIDRecordFile := { mkZIDRecordFile with identifier := zidSeven }

/-- A non-own record with `valid = false` carrying `zidThree`. -/
def invalidThree : ZIDRecordFile := { mkZIDRecordFile with identifier := zidThree }

/-- A sample open store on a current-format file holding only the header. -/
def openSampleState : CacheState :=
  { zidFileOpen := true, mainFile := some (.currentFmt [sampleHeader]), saveFile := none,
    associatedZid := sampleOwnZid, errors := 0 }

/-! ## The claims -/

/-- Claim C1 (failing evaluation): on an open store whose file holds the
header followed by one non-own record with `valid = false` carrying
identifier `zidSeven`, `getRecord zidSeven` returns that skipped record
itself — still invalid, at record-offset 1, with the file unchanged —
because `continue` in the C `do`/`while` still evaluates the `memcmp` loop
condition. The claim states that a skipped record can never be the record
returned, and that a returned matching record has `valid = true`. -/
theorem getRecord_returns_skipped_record :
    (getRecord [sampleHeader, invalidSeven] zidSeven).1.1 = invalidSeven ∧
    invalidSeven.valid = false ∧
    invalidSeven.ownZid = false ∧
    (getRecord [sampleHeader, invalidSeven] zidSeven).1.2 = 1 ∧
    (getRecord [sampleHeader, invalidSeven] zidSeven).2 = [sampleHeader, invalidSeven] := by
  decide

/-- Claim C2: every legacy peer record translated during migration yields a
current-format record carrying the legacy identifier, legacy `rs1Data` in
RS1 and legacy `rs2Data` in RS2, with `valid = true`, and with
`sasVerified` set exactly when the `SASVerified` bit is set in the legacy
`rs1Valid` flags byte. -/
theorem makePeerFromLegacy_carries_fields (recOld : zidrecord1) :
    (makePeerFromLegacy recOld).identifier = recOld.identifier ∧
    (makePeerFromLegacy recOld).rs1Data = recOld.rs1Data ∧
    (makePeerFromLegacy recOld).rs2Data = recOld.rs2Data ∧
    (makePeerFromLegacy recOld).valid = true ∧
    ((makePeerFromLegacy recOld).sasVerified = true ↔ recOld.rs1Valid &&& SASVerified ≠ 0) := by
  obtain ⟨h1, h2, h3, h4, _, h6⟩ := makePeerFromLegacy_fields recOld
  exact ⟨h1, h2, h3, h4, h6⟩

/-- Claim C4: calling `open` on a store that is already open returns 0 — an
outcome distinct from the success outcome 1 — and leaves the whole store
state (file handle, file contents, cached own identifier) unchanged. -/
theorem openCache_already_open (rand : List Byte) (renameOk : Bool) (s : CacheState)
    (h : s.zidFileOpen = true) :
    openCache rand renameOk s = (0, s) ∧ (0 : Int) ≠ 1 := by
  refine ⟨by simp [openCache, h], by decide⟩

/-- Witness for Claim C4 at a concrete open store. -/
theorem openCache_already_open_witness :
    openCache sampleOwnZid true openSampleState = (0, openSampleState) ∧ (0 : Int) ≠ 1 :=
  openCache_already_open sampleOwnZid true openSampleState rfl

/-- Claim C5 counterexample: on an open store whose only non-header record
is invalid and carries `zidThree`, the identifier `zidThree` is not present
among the valid peer records, yet `getRecord zidThree` appends nothing
(the file is unchanged) and returns a record with `valid = false` — not
the freshly created valid record the claim promises. -/
theorem getRecord_create_on_miss_cex :
    (∀ r ∈ [sampleHeader, invalidThree], r.valid = true → r.identifier ≠ zidThree) ∧
    (getRecord [sampleHeader, invalidThree] zidThree).2 = [sampleHeader, invalidThree] ∧
    (getRecord [sampleHeader, invalidThree] zidThree).1.1.valid = false := by
  decide

/-- Claim C5 (amended): for every identifier distinct from the identifier
of every record after the header of an open (hence nonempty) store,
`getRecord` appends exactly one new record — `valid = true`, the given
identifier, empty secret slots — modifies no existing record, and returns
the new record annotated with the offset at which it was written, the old
end of the file. -/
theorem getRecord_create_on_miss (file : List ZIDRecordFile) (zid : List Byte)
    (hne : file ≠ [])
    (hmiss : ∀ r ∈ file.drop 1, r.identifier ≠ zid) :
    (getRecord file zid).2 = file ++ [(mkZIDRecordFile.setZid zid).setValid] ∧
    (getRecord file zid).1.1 = (mkZIDRecordFile.setZid zid).setValid ∧
    (getRecord file zid).1.1.valid = true ∧
    (getRecord file zid).1.1.identifier = zid ∧
    (getRecord file zid).1.1.ownZid = false ∧
    (getRecord file zid).1.1.rs1Data = [] ∧
    (getRecord file zid).1.1.rs2Data = [] ∧
    (getRecord file zid).1.2 = file.length := by
  have hscan := scanLoop_no_match zid (file.drop 1) 1 hmiss
  rw [getRecord_scan_eof file zid _ hscan]
  have hlpos := List.length_pos.mpr hne
  refine ⟨rfl, rfl, rfl, rfl, rfl, rfl, rfl, ?_⟩
  simp only [List.length_drop]
  omega

/-- Witness for Claim C5 (amended) at a concrete store holding only the
header record. -/
theorem getRecord_create_on_miss_witness :
    (getRecord [sampleHeader] zidSeven).2
        = [sampleHeader] ++ [(mkZIDRecordFile.setZid zidSeven).setValid] ∧
    (getRecord [sampleHeader] zidSeven).1.1 = (mkZIDRecordFile.setZid zidSeven).setValid ∧
    (getRecord [sampleHeader] zidSeven).1.1.valid = true ∧
    (getRecord [sampleHeader] zidSeven).1.1.identifier = zidSeven ∧
    (getRecord [sampleHeader] zidSeven).1.1.ownZid = false ∧
    (getRecord [sampleHeader] zidSeven).1.1.rs1Data = [] ∧
    (getRecord [sampleHeader] zidSeven).1.1.rs2Data = [] ∧
    (getRecord [sampleHeader] zidSeven).1.2 = ([sampleHeader] : List ZIDRecordFile).length :=
  getRecord_create_on_miss [sampleHeader] zidSeven (by decide) (by decide)

/-- Claim C6: two successive `getRecord` calls for the same identifier with
no intervening save return the same annotated record (same stored content,
same file offset); the second call also leaves the file as the first call
left it. -/
theorem getRecord_idempotent (file : List ZIDRecordFile) (zid : List Byte)
    (hne : file ≠ []) :
    (getRecord (getRecord file zid).2 zid).1 = (getRecord file zid).1 ∧
    (getRecord (getRecord file zid).2 zid).2 = (getRecord file zid).2 := by
  cases hscan : scanLoop zid (file.drop 1) 1 with
  | found r pos =>
    have h1 := getRecord_scan_found file zid r pos hscan
    simp [h1]
  | eof pos =>
    obtain ⟨hnomatch, hpos⟩ := scanLoop_eof_inv zid (file.drop 1) 1 pos hscan
    have hlpos := List.length_pos.mpr hne
    have h1 := getRecord_scan_eof file zid pos hscan
    have hdrop : ((file ++ [(mkZIDRecordFile.setZid zid).setValid]).drop 1)
        = file.drop 1 ++ [(mkZIDRecordFile.setZid zid).setValid] :=
      List.drop_append_of_le_length (by omega)
    have hscan2 : scanLoop zid ((file ++ [(mkZIDRecordFile.setZid zid).setValid]).drop 1) 1
        = .found ((mkZIDRecordFile.setZid zid).setValid) pos := by
      rw [hdrop, scanLoop_append_match zid _ _ _ hnomatch rfl]
      exact congrArg _ hpos.symm
    have h2 := getRecord_scan_found (file ++ [(mkZIDRecordFile.setZid zid).setValid]) zid
      ((mkZIDRecordFile.setZid zid).setValid) pos hscan2
    simp [h1, h2]

/-- Witness for Claim C6: two lookups of a previously unseen identifier on
a store holding only the header record. -/
theorem getRecord_idempotent_witness :
    (getRecord (getRecord [sampleHeader] zidThree).2 zidThree).1
        = (getRecord [sampleHeader] zidThree).1 ∧
    (getRecord (getRecord [sampleHeader] zidThree).2 zidThree).2
        = (getRecord [sampleHeader] zidThree).2 :=
  getRecord_idempotent [sampleHeader] zidThree (by decide)

/-- Claim C9: on an open store whose file is in the current format (its
leading byte is the nonzero version marker), the migration check returns
the state unchanged: same file contents, same open handle, same cached
identifier, same error counter. -/
theorem checkDoMigration_noop_current (rand : List Byte) (renameOk : Bool) (s : CacheState)
    (r : ZIDRecordFile) (rest : List ZIDRecordFile)
    (hopen : s.zidFileOpen = true)
    (hmain : s.mainFile = some (.currentFmt (r :: rest))) :
    checkDoMigration rand renameOk s = s := by
  simp [checkDoMigration, hmain, hopen, readFirstByte]

/-- Witness for Claim C9 at a concrete open current-format store. -/
theorem checkDoMigration_noop_current_witness :
    checkDoMigration zidSeven true openSampleState = openSampleState :=
  checkDoMigration_noop_current zidSeven true openSampleState sampleHeader [] rfl rfl

/-- A fresh random identity used by witnesses for the fallback paths. -/
def zidNine : List Byte := List.replicate IDENTIFIER_LEN 9

/-- A sample legacy own record (leading record of a legacy file; the legacy
own record leaves its validity byte zero, consistent with the zero leading
byte that marks the legacy format). -/
def legacyOwnRec : zidrecord1 :=
  { recValid := 0, ownZid := 1, rs1Valid := 0, identifier := sampleOwnZid,
    rs1Data := [], rs2Data := [] }

/-- A sample valid legacy peer record with the `SASVerified` bit set. -/
def legacyPeerA : zidrecord1 :=
  { recValid := 1, ownZid := 0, rs1Valid := 2, identifier := zidSeven,
    rs1Data := [1, 2], rs2Data := [3, 4] }

/-- A sample legacy peer record with its validity byte unset. -/
def legacyPeerB : zidrecord1 :=
  { recValid := 0, ownZid := 0, rs1Valid := 0, identifier := zidThree,
    rs1Data := [], rs2Data := [] }

/-- A sample open store on a legacy-format file (one own record, two peer
records of which one is invalid). -/
def legacyState : CacheState :=
  { zidFileOpen := true, mainFile := some (.legacyFmt [legacyOwnRec, legacyPeerA, legacyPeerB]),
    saveFile := none, associatedZid := [], errors := 0 }

/-- Claim C3: migrating a legacy-format file holding one leading own-record
and K peer records, M of them with validity byte zero, produces (rename
succeeding) a current-format file of exactly one header record —
`ownZid = true`, carrying the legacy own identifier — followed by the
K − M surviving peer records in their original order, each the
`makePeerFromLegacy` translation of its legacy record, hence with
`valid = true` and `sasVerified` equal to the legacy `SASVerified` bit. -/
theorem checkDoMigration_completeness
    (rand : List Byte) (s : CacheState) (ownRec : zidrecord1) (peers : List zidrecord1)
    (hopen : s.zidFileOpen = true)
    (hmain : s.mainFile = some (.legacyFmt (ownRec :: peers)))
    (hown : ownRec.ownZid = 1)
    (hpeers : ∀ r ∈ peers, r.ownZid ≠ 1) :
    ∃ hdr : ZIDRecordFile,
      (checkDoMigration rand true s).mainFile
        = some (.currentFmt
            (hdr :: (peers.filter (fun r => !decide (r.recValid = 0))).map makePeerFromLegacy)) ∧
      (checkDoMigration rand true s).zidFileOpen = true ∧
      hdr.ownZid = true ∧
      hdr.identifier = ownRec.identifier ∧
      ((peers.filter (fun r => !decide (r.recValid = 0))).map makePeerFromLegacy).length
        = peers.length - (peers.filter (fun r => decide (r.recValid = 0))).length ∧
      ∀ rOld ∈ peers.filter (fun r => !decide (r.recValid = 0)),
        (makePeerFromLegacy rOld).valid = true ∧
        (makePeerFromLegacy rOld).ownZid = false ∧
        ((makePeerFromLegacy rOld).sasVerified = true ↔ rOld.rs1Valid &&& SASVerified ≠ 0) := by
  refine ⟨(mkZIDRecordFile.setZid ownRec.identifier).setOwnZIDRecord, ?_, ?_, rfl, rfl, ?_, ?_⟩
  · simp [checkDoMigration, hmain, hopen, readFirstByte, readLegacyFirst, legacyRest, hown,
      migrateLoop_eq_filter peers hpeers]
  · simp [checkDoMigration, hmain, hopen, readFirstByte, readLegacyFirst, legacyRest, hown]
  · have hsum := length_filter_add_length_filter_not (fun r => decide (r.recValid = 0)) peers
    simp only [List.length_map]
    omega
  · intro rOld _
    obtain ⟨_, _, _, h4, h5, h6⟩ := makePeerFromLegacy_fields rOld
    exact ⟨h4, h5, h6⟩

/-- Witness for Claim C3 on the sample legacy file: one own record, K = 2
peer records with M = 1 invalid. -/
theorem checkDoMigration_completeness_witness :
    ∃ hdr : ZIDRecordFile,
      (checkDoMigration zidNine true legacyState).mainFile
        = some (.currentFmt
            (hdr :: (([legacyPeerA, legacyPeerB].filter
                (fun r => !decide (r.recValid = 0))).map makePeerFromLegacy))) ∧
      (checkDoMigration zidNine true legacyState).zidFileOpen = true ∧
      hdr.ownZid = true ∧
      hdr.identifier = legacyOwnRec.identifier ∧
      (((([legacyPeerA, legacyPeerB] : List zidrecord1).filter
            (fun r => !decide (r.recValid = 0))).map makePeerFromLegacy)).length
        = ([legacyPeerA, legacyPeerB] : List zidrecord1).length
          - (([legacyPeerA, legacyPeerB] : List zidrecord1).filter
              (fun r => decide (r.recValid = 0))).length ∧
      ∀ rOld ∈ ([legacyPeerA, legacyPeerB] : List zidrecord1).filter
          (fun r => !decide (r.recValid = 0)),
        (makePeerFromLegacy rOld).valid = true ∧
        (makePeerFromLegacy rOld).ownZid = false ∧
        ((makePeerFromLegacy rOld).sasVerified = true ↔ rOld.rs1Valid &&& SASVerified ≠ 0) :=
  checkDoMigration_completeness zidNine legacyState legacyOwnRec [legacyPeerA, legacyPeerB]
    rfl rfl (by decide) (by decide)

/-- Claim C7: opening a store whose file is in the legacy format but whose
first legacy record cannot be read, or is not marked as an own record,
fails with -1 after the rename: the content sits at the `.save` sibling,
no file exists at the original path, and the store is left closed. -/
theorem openCache_migration_abort (rand : List Byte) (s : CacheState) (recs : List zidrecord1)
    (hclosed : s.zidFileOpen = false)
    (hmain : s.mainFile = some (.legacyFmt recs))
    (hbad : ∀ r ∈ recs.take 1, r.ownZid ≠ 1) :
    (openCache rand true s).1 = -1 ∧
    (openCache rand true s).2.mainFile = none ∧
    (openCache rand true s).2.zidFileOpen = false ∧
    (openCache rand true s).2.saveFile = some (.legacyFmt recs) := by
  cases recs with
  | nil =>
    simp [openCache, hclosed, hmain, checkDoMigration, readFirstByte, readLegacyFirst]
  | cons r rest =>
    have hr : r.ownZid ≠ 1 := hbad r (by simp)
    simp [openCache, hclosed, hmain, checkDoMigration, readFirstByte, readLegacyFirst, hr]

/-- A closed store over a legacy file whose first record is a plain peer
record, not an own record. -/
def badLegacyState : CacheState :=
  { zidFileOpen := false, mainFile := some (.legacyFmt [legacyPeerA]), saveFile := none,
    associatedZid := [], errors := 0 }

/-- Witness for Claim C7: a closed store on a legacy file whose first
record is a plain peer record, not an own record. -/
theorem openCache_migration_abort_witness :
    (openCache zidNine true badLegacyState).1 = -1 ∧
    (openCache zidNine true badLegacyState).2.mainFile = none ∧
    (openCache zidNine true badLegacyState).2.zidFileOpen = false ∧
    (openCache zidNine true badLegacyState).2.saveFile = some (.legacyFmt [legacyPeerA]) :=
  openCache_migration_abort zidNine badLegacyState [legacyPeerA] rfl rfl (by decide)

/-- Claim C8: when the rename of a legacy-detected file fails, migration
unlinks the original and creates a brand-new current-format store at the
original path: exactly one header record with the freshly generated random
identity, no peer records, the store open and its cached identifier set to
that fresh identity; the `.save` path is untouched. -/
theorem checkDoMigration_rename_fallback (rand : List Byte) (s : CacheState) (content : FileData)
    (hopen : s.zidFileOpen = true)
    (hmain : s.mainFile = some content)
    (hlegacy : (readFirstByte content).getD 0 = 0) :
    (checkDoMigration rand false s).mainFile
      = some (.currentFmt [(mkZIDRecordFile.setZid rand).setOwnZIDRecord]) ∧
    ((mkZIDRecordFile.setZid rand).setOwnZIDRecord).ownZid = true ∧
    ((mkZIDRecordFile.setZid rand).setOwnZIDRecord).identifier = rand ∧
    (checkDoMigration rand false s).zidFileOpen = true ∧
    (checkDoMigration rand false s).associatedZid = rand ∧
    (checkDoMigration rand false s).saveFile = s.saveFile := by
  rcases hfb : readFirstByte content with _ | fb
  · simp [checkDoMigration, hmain, hopen, hfb, createZIDFile, mkZIDRecordFile,
      ZIDRecordFile.setZid, ZIDRecordFile.setOwnZIDRecord]
  · have hz : fb = 0 := by simpa [hfb] using hlegacy
    subst hz
    simp [checkDoMigration, hmain, hopen, hfb, createZIDFile, mkZIDRecordFile,
      ZIDRecordFile.setZid, ZIDRecordFile.setOwnZIDRecord]

/-- Witness for Claim C8: the sample open legacy store with the rename
failing. -/
theorem checkDoMigration_rename_fallback_witness :
    (checkDoMigration zidNine false legacyState).mainFile
      = some (.currentFmt [(mkZIDRecordFile.setZid zidNine).setOwnZIDRecord]) ∧
    ((mkZIDRecordFile.setZid zidNine).setOwnZIDRecord).ownZid = true ∧
    ((mkZIDRecordFile.setZid zidNine).setOwnZIDRecord).identifier = zidNine ∧
    (checkDoMigration zidNine false legacyState).zidFileOpen = true ∧
    (checkDoMigration zidNine false legacyState).associatedZid = zidNine ∧
    (checkDoMigration zidNine false legacyState).saveFile = legacyState.saveFile :=
  checkDoMigration_rename_fallback zidNine legacyState
    (.legacyFmt [legacyOwnRec, legacyPeerA, legacyPeerB]) rfl rfl (by decide)

/-- Claim C10: opening a store on an existing file of fewer than two bytes
takes the legacy branch (the failed two-byte read increments the error
counter and forces a zero leading byte), renames the file to the `.save`
sibling, aborts the migration because no legacy header can be read, and
returns -1 with no file left at the original path and the store closed. -/
theorem openCache_short_file (rand : List Byte) (s : CacheState) (b : Option Byte)
    (hclosed : s.zidFileOpen = false)
    (hmain : s.mainFile = some (.shortFile b)) :
    (openCache rand true s).1 = -1 ∧
    (openCache rand true s).2.mainFile = none ∧
    (openCache rand true s).2.saveFile = some (.shortFile b) ∧
    (openCache rand true s).2.zidFileOpen = false ∧
    (openCache rand true s).2.errors = s.errors + 1 := by
  simp [openCache, hclosed, hmain, checkDoMigration, readFirstByte, readLegacyFirst]

/-- A closed store over an existing empty file (zero bytes, hence shorter
than the two-byte format peek). -/
def shortState : CacheState :=
  { zidFileOpen := false, mainFile := some (.shortFile none), saveFile := none,
    associatedZid := [], errors := 0 }

/-- Witness for Claim C10: a closed store over an empty file. -/
theorem openCache_short_file_witness :
    (openCache zidNine true shortState).1 = -1 ∧
    (openCache zidNine true shortState).2.mainFile = none ∧
    (openCache zidNine true shortState).2.saveFile = some (.shortFile none) ∧
    (openCache zidNine true shortState).2.zidFileOpen = false ∧
    (openCache zidNine true shortState).2.errors = shortState.errors + 1 :=
  openCache_short_file zidNine shortState none rfl rfl
